import Mathlib

/-!
Verification of the page-image + text-region extraction and storage
subsystem of the Tabular_Review backend.

Shallow embedding of:
  * `server/ocr_processor.py` — `pdf_to_page_images`, `extract_text_regions`,
    `process_pdf`;
  * `server/ocr_storage.py`   — the filesystem-backed document store;
  * `server/main.py`          — the OCR section of the `/convert` handler.

Modelling conventions:
  * A PDF document (as seen through PyMuPDF's `get_text("dict")`) is a list
    of pages; a page is a list of blocks; a block has an integer `type`
    (0 = text) and a list of lines; a line is a list of spans; a span has a
    text string and a native bounding box (x0, y0, x1, y1) in PDF points.
  * Coordinates are rationals (Python floats carry exact decimal literals
    here only through products with `dpi / 72`; ℚ keeps the arithmetic
    exact, matching the spec's "exactly" claims).
  * The rendered page image is abstracted as the pair (page, zoom): the
    pixel contents are produced by the external rasterizer and are opaque
    to every property below.
  * The filesystem store is a record of the allocated document directories
    plus association lists keyed by (doc_id, page_number) for the two file
    kinds (`pages/page_N.png`, `ocr/page_N.json`); JSON serialisation of a
    region list round-trips exactly and is modelled as the identity.
  * Exceptions raised by external calls (PyMuPDF rendering, disk writes)
    are modelled by explicit failure-injection parameters; `Except` carries
    the store state at the point of the raise.
-/

namespace TabularReview

/-- Python's `str.strip()` (ocr_processor.py line 44): drop leading and
trailing whitespace.  Modelled over the character list (ASCII whitespace;
Python additionally strips other Unicode whitespace, which no property below
depends on). -/
def pyStrip (s : String) : String :=
  ⟨((s.data.dropWhile Char.isWhitespace).reverse.dropWhile Char.isWhitespace).reverse⟩

/-- Python's `str.lower()` (main.py line 88), modelled over the character
list. -/
def pyLower (s : String) : String :=
  ⟨s.data.map Char.toLower⟩

/-- Native bounding box of a span: (x0, y0, x1, y1) in PDF points, y measured
from the top of the page (PyMuPDF "dict" convention). -/
structure BBox where
  x0 : ℚ
  y0 : ℚ
  x1 : ℚ
  y1 : ℚ
deriving DecidableEq, Repr

/-- One entry of a line's `"spans"` list: the raw text and its native bbox. -/
structure Span where
  text : String
  bbox : BBox
deriving DecidableEq, Repr

/-- One entry of a block's `"lines"` list. -/
structure Line where
  spans : List Span
deriving DecidableEq, Repr

/-- One entry of a page's `"blocks"` list; `type = 0` marks a text block,
anything else (e.g. 1 = image block) is skipped by the extractor. -/
structure Block where
  type : ℤ
  lines : List Line
deriving DecidableEq, Repr

/-- A page of the PDF as exposed by `page.get_text("dict")["blocks"]`. -/
structure Page where
  blocks : List Block
deriving DecidableEq, Repr

/-- The opened PDF document: its pages in document order. -/
abbrev PdfDoc := List Page

/-- One text region emitted by `extract_text_regions`:
`{"bbox": [[x,y]×4], "text": str, "confidence": 1.0}`. -/
structure Region where
  bbox : List (ℚ × ℚ)
  text : String
  confidence : ℚ
deriving DecidableEq, Repr

/-- The body of the innermost loop of `extract_text_regions`
(ocr_processor.py lines 44-64): trim the span text, drop the span if the
trimmed text is empty, otherwise scale the four bbox scalars by `zoom` and
emit the 4-corner polygon region with confidence 1.0. -/
def spanRegion (zoom : ℚ) (s : Span) : Option Region :=
  let text := pyStrip s.text
  if text = "" then none
  else
    some { bbox := [(s.bbox.x0 * zoom, s.bbox.y0 * zoom),
                    (s.bbox.x1 * zoom, s.bbox.y0 * zoom),
                    (s.bbox.x1 * zoom, s.bbox.y1 * zoom),
                    (s.bbox.x0 * zoom, s.bbox.y1 * zoom)],
           text := text,
           confidence := 1 }

/-- The per-page loop of `extract_text_regions` (ocr_processor.py lines
36-65): walk blocks (skipping non-text blocks), lines, spans, appending the
regions in structural traversal order. -/
def pageRegions (zoom : ℚ) (p : Page) : List Region :=
  (p.blocks.filter (fun b => b.type == 0)).flatMap (fun b =>
    b.lines.flatMap (fun l => l.spans.filterMap (spanRegion zoom)))

/-- `extract_text_regions(pdf_path, dpi)` (ocr_processor.py lines 24-68) on
an already-opened document: one region list per page, `zoom = dpi / 72`. -/
def extract_text_regions (doc : PdfDoc) (dpi : ℚ) : List (List Region) :=
  doc.map (pageRegions (dpi / 72))

/-- The raster image of one page: the external `get_pixmap` render is opaque,
so an image is identified by its source page and the zoom it was rendered
at (`fitz.Matrix(zoom, zoom)`). -/
structure PageImage where
  page : Page
  zoom : ℚ
deriving DecidableEq, Repr

/-- `pdf_to_page_images(pdf_path, dpi)` (ocr_processor.py lines 10-21) on an
already-opened document: one image per page, rendered at `zoom = dpi / 72`. -/
def pdf_to_page_images (doc : PdfDoc) (dpi : ℚ) : List PageImage :=
  doc.map (fun p => { page := p, zoom := dpi / 72 })

/-- `process_pdf(pdf_path, dpi)` (ocr_processor.py lines 71-81): the two
independent passes over the same document at the same resolution. -/
def process_pdf (doc : PdfDoc) (dpi : ℚ) : List PageImage × List (List Region) :=
  (pdf_to_page_images doc dpi, extract_text_regions doc dpi)

/-! ### Document store (`server/ocr_storage.py`)

The filesystem under `server/ocr_data/` is modelled as: the set of document
directories that exist (each created with its `pages/` and `ocr/` subdirs by
`create_document_storage`), plus one association list per file kind, keyed
by `(doc_id, page_num)`.  Writing a file overwrites any previous file of the
same name; a write into a directory that does not exist raises, modelled by
the save operations returning `none`. -/

/-- Association-list lookup by key `(doc_id, page_num)`: the content of the
file at that key, if it exists. -/
def lookupKey {α : Type} : List ((String × Nat) × α) → (String × Nat) → Option α
  | [], _ => none
  | (k, v) :: rest, key => if key = k then some v else lookupKey rest key

/-- Overwrite the file at key `k` with content `v` (the filesystem keeps at
most one file per name). -/
def setKey {α : Type} (l : List ((String × Nat) × α)) (k : String × Nat) (v : α) :
    List ((String × Nat) × α) :=
  (k, v) :: l.filter (fun e => decide (e.1 ≠ k))

/-- The state of `server/ocr_data/`. -/
structure Store where
  allocated : List String
  images : List ((String × Nat) × PageImage)
  ocrData : List ((String × Nat) × List Region)
deriving DecidableEq, Repr

/-- A fresh `ocr_data` directory with no documents. -/
def emptyStore : Store := { allocated := [], images := [], ocrData := [] }

/-- `create_document_storage(doc_id)` (ocr_storage.py lines 19-23):
`mkdir(parents=True, exist_ok=True)` for the `pages/` and `ocr/` subdirs —
creates the document directory on first call, no-op if it already exists. -/
def create_document_storage (st : Store) (d : String) : Store :=
  if d ∈ st.allocated then st else { st with allocated := d :: st.allocated }

/-- The string `ocr_storage.save_page_image` / `get_page_image_path` build
for the page-image file (relative to the server directory). -/
def page_image_path (d : String) (n : Nat) : String :=
  "ocr_data/" ++ d ++ "/pages/page_" ++ toString n ++ ".png"

/-- `save_page_image(doc_id, page_num, image)` (ocr_storage.py lines 26-30):
writes `pages/page_N.png`, overwriting any prior image for the same key;
raises (`none`) if the document directory was never created. -/
def save_page_image (st : Store) (d : String) (n : Nat) (img : PageImage) :
    Option Store :=
  if d ∈ st.allocated then
    some { st with images := setKey st.images (d, n) img }
  else none

/-- `save_page_ocr(doc_id, page_num, ocr_result)` (ocr_storage.py lines
33-38): `json.dump`s the region list to `ocr/page_N.json`, overwriting any
prior value; raises (`none`) if the document directory was never created.
JSON serialisation of a region list round-trips exactly and is modelled as
the identity. -/
def save_page_ocr (st : Store) (d : String) (n : Nat) (R : List Region) :
    Option Store :=
  if d ∈ st.allocated then
    some { st with ocrData := setKey st.ocrData (d, n) R }
  else none

/-- `get_page_image_path(doc_id, page_num)` (ocr_storage.py lines 41-45):
the path string if `pages/page_N.png` exists, else `None`. -/
def get_page_image_path (st : Store) (d : String) (n : Nat) : Option String :=
  match lookupKey st.images (d, n) with
  | some _ => some (page_image_path d n)
  | none => none

/-- `get_page_ocr(doc_id, page_num)` (ocr_storage.py lines 48-53): `None` if
`ocr/page_N.json` does not exist, else its parsed content. -/
def get_page_ocr (st : Store) (d : String) (n : Nat) : Option (List Region) :=
  lookupKey st.ocrData (d, n)

/-- `get_page_count(doc_id)` (ocr_storage.py lines 56-60): 0 if the `pages/`
directory does not exist, else the number of files matching `page_*.png`
(every image save writes exactly one such file). -/
def get_page_count (st : Store) (d : String) : Nat :=
  if d ∈ st.allocated then
    (st.images.filter (fun e => decide (e.1.1 = d))).length
  else 0

/-- `cleanup_document(doc_id)` (ocr_storage.py lines 63-66): remove the
document directory and everything under it; no-op if it does not exist. -/
def cleanup_document (st : Store) (d : String) : Store :=
  { allocated := st.allocated.filter (fun x => decide (x ≠ d)),
    images := st.images.filter (fun e => decide (e.1.1 ≠ d)),
    ocrData := st.ocrData.filter (fun e => decide (e.1.1 ≠ d)) }

/-! ### The OCR section of the `/convert` handler (`server/main.py` 85-111)

The handler's response body.  External failures are injected explicitly:
`processResult` is the outcome of `process_pdf(tmp_path)` (`Except.error`
when PyMuPDF raised — failure to open the file, or a per-page render/text
failure), and a `SaveFail` names the loop iteration at which a disk write
raises, if any.  An `Except.error` carries the store state at the point of
the raise. -/

/-- The JSON body `{"markdown": ..., "doc_id": ..., "has_ocr": ...}` returned
by `convert_document` (main.py lines 107-111). -/
structure ConvertResponse where
  markdown : String
  doc_id : Option String
  has_ocr : Bool
deriving DecidableEq, Repr

/-- Injected disk-write failure: the save call that raises, identified by
the 0-based loop index `i` (`img i` = the `save_page_image` call for page
`i+1`, `ocr i` = the `save_page_ocr` call for page `i+1`). -/
inductive SaveFail where
  | img (i : Nat)
  | ocr (i : Nat)
deriving DecidableEq, Repr

/-- The save loop of main.py lines 95-97:
`for i, (img, ocr_data) in enumerate(zip(images, ocr_results)):
save_page_image(doc_id, i+1, img); save_page_ocr(doc_id, i+1, ocr_data)`.
`Except.error` carries the store at the point of the raise. -/
def savePagesFrom (d : String) (fail : Option SaveFail) :
    Nat → Store → List (PageImage × List Region) → Except Store Store
  | _, st, [] => .ok st
  | i, st, (img, regions) :: rest =>
    if fail = some (.img i) then .error st
    else match save_page_image st d (i + 1) img with
      | none => .error st
      | some st1 =>
        if fail = some (.ocr i) then .error st1
        else match save_page_ocr st1 d (i + 1) regions with
          | none => .error st1
          | some st2 => savePagesFrom d fail (i + 1) st2 rest

/-- The `try` block of main.py lines 89-100: mint the document id (passed in
as `docId` — `uuid.uuid4()` is external), create its storage, run
`process_pdf`, save every page.  `Except.error` carries the store at the
point of the raise. -/
def ocrTryBlock (st : Store) (docId : String)
    (processResult : Except Unit (List PageImage × List (List Region)))
    (fail : Option SaveFail) : Except Store (String × Store) :=
  let st1 := create_document_storage st docId
  match processResult with
  | .error _ => .error st1
  | .ok (images, ocrs) =>
    match savePagesFrom docId fail 0 st1 (images.zip ocrs) with
    | .error stp => .error stp
    | .ok st2 => .ok (docId, st2)

/-- `convert_document` from main.py lines 85-111, restricted to the OCR
section: `doc_id`/`has_ocr` start as `None`/`False`; for a `.pdf` suffix the
`try` block runs and any exception in it is caught, logged, and answered by
resetting `doc_id = None`, `has_ocr = False`; the markdown conversion result
is returned either way.  Returns the response body and the store state the
handler leaves behind. -/
def convert_document (markdown : String) (suffix : String) (docId : String)
    (st : Store) (processResult : Except Unit (List PageImage × List (List Region)))
    (fail : Option SaveFail) : ConvertResponse × Store :=
  if pyLower suffix = ".pdf" then
    match ocrTryBlock st docId processResult fail with
    | .error stp => ({ markdown := markdown, doc_id := none, has_ocr := false }, stp)
    | .ok (d, st2) => ({ markdown := markdown, doc_id := some d, has_ocr := true }, st2)
  else ({ markdown := markdown, doc_id := none, has_ocr := false }, st)

/-! ### Document-handle lifecycle (`ocr_processor.py` lines 12-21 / 32-68)

Both `pdf_to_page_images` and `extract_text_regions` run
`doc = fitz.open(path); for page in doc: ...; doc.close()` with the
`doc.close()` after the loop, not inside a `finally`/`with`.  The event
trace records the calls made on the PyMuPDF handle; a per-page external
failure (`fail = some i`: the PyMuPDF call for page `i` raises) aborts the
loop and propagates, so every event after the raise — including the
trailing `close` — is skipped. -/

/-- Observable calls on the PyMuPDF document handle. -/
inductive FitzEv where
  | openDoc
  | renderPage (i : Nat)
  | textPage (i : Nat)
  | closeDoc
deriving DecidableEq, Repr

/-- The `for page in doc` loop of `pdf_to_page_images` (lines 16-19): each
iteration calls `page.get_pixmap`; if the call for page `i` raises, the
loop aborts (second component `false` = an exception is propagating). -/
def renderLoop (fail : Option Nat) : Nat → List Page → List FitzEv × Bool
  | _, [] => ([], true)
  | i, _ :: rest =>
    if fail = some i then ([.renderPage i], false)
    else
      let r := renderLoop fail (i + 1) rest
      (.renderPage i :: r.1, r.2)

/-- The calls `pdf_to_page_images` makes on the document handle: `fitz.open`,
the per-page renders, and — only when the loop completed without raising —
the trailing `doc.close()` (line 20, not in a `finally`). -/
def pdf_to_page_images_events (doc : List Page) (fail : Option Nat) :
    List FitzEv × Bool :=
  let r := renderLoop fail 0 doc
  (.openDoc :: r.1 ++ (if r.2 then [.closeDoc] else []), r.2)

/-- The `for page in doc` loop of `extract_text_regions` (lines 36-65): each
iteration calls `page.get_text("dict", ...)`; if the call for page `i`
raises, the loop aborts. -/
def textLoop (fail : Option Nat) : Nat → List Page → List FitzEv × Bool
  | _, [] => ([], true)
  | i, _ :: rest =>
    if fail = some i then ([.textPage i], false)
    else
      let r := textLoop fail (i + 1) rest
      (.textPage i :: r.1, r.2)

/-- The calls `extract_text_regions` makes on the document handle: the
trailing `doc.close()` (line 67) runs only when every page's text walk
succeeded. -/
def extract_text_regions_events (doc : List Page) (fail : Option Nat) :
    List FitzEv × Bool :=
  let r := textLoop fail 0 doc
  (.openDoc :: r.1 ++ (if r.2 then [.closeDoc] else []), r.2)

/-! ### Auxiliary definitions and lemmas -/

/-- Scale both coordinates of every polygon corner by `c` (text and
confidence untouched); used to state the DPI-linearity property. -/
def scaleRegion (c : ℚ) (r : Region) : Region :=
  { r with bbox := r.bbox.map (fun q => (c * q.1, c * q.2)) }

theorem spanRegion_scale (c z : ℚ) :
    spanRegion (c * z) = fun s => (spanRegion z s).map (scaleRegion c) := by
  funext s
  by_cases h : pyStrip s.text = ""
  · simp [spanRegion, h]
  · simp only [spanRegion, h, if_neg, Option.map_some]
    simp [scaleRegion]
    refine ⟨⟨?_, ?_⟩, ⟨?_, ?_⟩, ⟨?_, ?_⟩, ?_, ?_⟩ <;> ring

theorem pageRegions_scale (c z : ℚ) (p : Page) :
    pageRegions (c * z) p = (pageRegions z p).map (scaleRegion c) := by
  simp only [pageRegions, List.map_flatMap, List.map_filterMap, spanRegion_scale]

theorem pageRegions_nil (zoom : ℚ) (p : Page) (h : ∀ b ∈ p.blocks, b.type ≠ 0) :
    pageRegions zoom p = [] := by
  have : p.blocks.filter (fun b => b.type == 0) = [] := by
    refine List.filter_eq_nil_iff.mpr ?_
    intro b hb
    simpa using h b hb
  simp [pageRegions, this]

/-! ### The claims -/

/-- Claim C1: for every text span the Extractor emits a region for, with
native bounding box (x0, y0, x1, y1) in PDF points and extraction resolution
`dpi`, the emitted bounding polygon is exactly
[[x0*s, y0*s], [x1*s, y0*s], [x1*s, y1*s], [x0*s, y1*s]] with s = dpi/72,
corners ordered top-left, top-right, bottom-right, bottom-left, and the
region's confidence is exactly 1.0. -/
theorem extractor_emits_scaled_polygon_confidence_one
    (doc : PdfDoc) (dpi : ℚ) (p : Page) (b : Block) (l : Line) (s : Span)
    (hp : p ∈ doc) (hb : b ∈ p.blocks) (hbt : b.type = 0)
    (hl : l ∈ b.lines) (hs : s ∈ l.spans) (ht : pyStrip s.text ≠ "") :
    ∃ regions ∈ extract_text_regions doc dpi, ∃ r ∈ regions,
      spanRegion (dpi / 72) s = some r ∧
      r.bbox = [(s.bbox.x0 * (dpi / 72), s.bbox.y0 * (dpi / 72)),
                (s.bbox.x1 * (dpi / 72), s.bbox.y0 * (dpi / 72)),
                (s.bbox.x1 * (dpi / 72), s.bbox.y1 * (dpi / 72)),
                (s.bbox.x0 * (dpi / 72), s.bbox.y1 * (dpi / 72))] ∧
      r.confidence = 1 := by
  refine ⟨pageRegions (dpi / 72) p, List.mem_map_of_mem _ hp, ?_⟩
  have hsr : spanRegion (dpi / 72) s =
      some { bbox := [(s.bbox.x0 * (dpi / 72), s.bbox.y0 * (dpi / 72)),
                      (s.bbox.x1 * (dpi / 72), s.bbox.y0 * (dpi / 72)),
                      (s.bbox.x1 * (dpi / 72), s.bbox.y1 * (dpi / 72)),
                      (s.bbox.x0 * (dpi / 72), s.bbox.y1 * (dpi / 72))],
             text := pyStrip s.text, confidence := 1 } := by
    simp [spanRegion, ht]
  refine ⟨_, ?_, hsr, rfl, rfl⟩
  refine List.mem_flatMap.mpr ⟨b, List.mem_filter.mpr ⟨hb, by simp [hbt]⟩, ?_⟩
  exact List.mem_flatMap.mpr ⟨l, hl, List.mem_filterMap.mpr ⟨s, hs, hsr⟩⟩

/-- The one-page, one-span document of the spec's concrete scenario:
"Hello World" at PDF-point bbox (72,72)-(216,86). -/
def helloSpan : Span :=
  { text := "Hello World", bbox := { x0 := 72, y0 := 72, x1 := 216, y1 := 86 } }

/-- Its enclosing page: one text block, one line, one span. -/
def helloPage : Page := { blocks := [{ type := 0, lines := [{ spans := [helloSpan] }] }] }

/-- Witness for C1: the "Hello World" span at DPI 150. -/
theorem extractor_emits_scaled_polygon_confidence_one_witness :
    helloPage ∈ [helloPage] ∧
    (∃ regions ∈ extract_text_regions [helloPage] 150, ∃ r ∈ regions,
      spanRegion (150 / 72) helloSpan = some r ∧
      r.bbox = [(helloSpan.bbox.x0 * (150 / 72), helloSpan.bbox.y0 * (150 / 72)),
                (helloSpan.bbox.x1 * (150 / 72), helloSpan.bbox.y0 * (150 / 72)),
                (helloSpan.bbox.x1 * (150 / 72), helloSpan.bbox.y1 * (150 / 72)),
                (helloSpan.bbox.x0 * (150 / 72), helloSpan.bbox.y1 * (150 / 72))] ∧
      r.confidence = 1) :=
  ⟨by decide,
   extractor_emits_scaled_polygon_confidence_one [helloPage] 150 helloPage
     { type := 0, lines := [{ spans := [helloSpan] }] } { spans := [helloSpan] } helloSpan
     (by decide) (by decide) (by decide) (by decide) (by decide) (by decide)⟩

/-- Claim C2: for every readable PDF with P pages, the Rasterizer returns
exactly P images and the Extractor exactly P region lists; a page with zero
text blocks still occupies its position as an empty region list. -/
theorem page_sequences_align_one_to_one (doc : PdfDoc) (dpi : ℚ) :
    (pdf_to_page_images doc dpi).length = doc.length ∧
    (extract_text_regions doc dpi).length = doc.length ∧
    ∀ (i : Nat) (p : Page), doc[i]? = some p → (∀ b ∈ p.blocks, b.type ≠ 0) →
      (extract_text_regions doc dpi)[i]? = some [] := by
  refine ⟨by simp [pdf_to_page_images], by simp [extract_text_regions], ?_⟩
  intro i p hip hblocks
  calc (extract_text_regions doc dpi)[i]?
      = (doc[i]?).map (pageRegions (dpi / 72)) := List.getElem?_map ..
    _ = some (pageRegions (dpi / 72) p) := by rw [hip]; rfl
    _ = some [] := by rw [pageRegions_nil _ _ hblocks]

/-- A one-page document whose only block is an image block (`type = 1`). -/
def imageOnlyPage : Page := { blocks := [{ type := 1, lines := [] }] }

/-- Witness for C2: a 1-page image-only document at DPI 150 — the extractor
output holds an empty region list at position 0. -/
theorem page_sequences_align_one_to_one_witness :
    ([imageOnlyPage] : PdfDoc)[0]? = some imageOnlyPage ∧
    (∀ b ∈ imageOnlyPage.blocks, b.type ≠ 0) ∧
    (extract_text_regions [imageOnlyPage] 150)[0]? = some [] :=
  ⟨by decide, by decide,
   (page_sequences_align_one_to_one [imageOnlyPage] 150).2.2 0 imageOnlyPage
     (by decide) (by decide)⟩

/-- Claim C3: extracting at DPI=300 yields bounding-box coordinates exactly
double, component-wise, those obtained at DPI=150 for the same PDF (the
scale factor applied is exactly dpi/72). -/
theorem dpi300_bboxes_double_dpi150 (doc : PdfDoc) :
    extract_text_regions doc 300 =
      (extract_text_regions doc 150).map (List.map (scaleRegion 2)) := by
  have h : (300 : ℚ) / 72 = 2 * (150 / 72) := by norm_num
  simp only [extract_text_regions, h, List.map_map]
  refine List.map_congr_left ?_
  intro p _
  simp [pageRegions_scale, Function.comp]

/-- Claim C4: every region produced by the Extractor has text equal to the
whitespace-trimmed text of its source span and that text is never empty; a
span whose trimmed text is empty produces no region at all. -/
theorem region_text_trimmed_and_nonempty (doc : PdfDoc) (dpi : ℚ) :
    (∀ regions ∈ extract_text_regions doc dpi, ∀ r ∈ regions,
      r.text ≠ "" ∧
      ∃ p ∈ doc, ∃ b ∈ p.blocks, ∃ l ∈ b.lines, ∃ s ∈ l.spans,
        r.text = pyStrip s.text) ∧
    (∀ (z : ℚ) (s : Span), pyStrip s.text = "" → spanRegion z s = none) := by
  constructor
  · intro regions hregions r hr
    obtain ⟨p, hp, rfl⟩ := List.mem_map.mp hregions
    obtain ⟨b, hbf, hb2⟩ := List.mem_flatMap.mp hr
    obtain ⟨hb, _⟩ := List.mem_filter.mp hbf
    obtain ⟨l, hl, hr3⟩ := List.mem_flatMap.mp hb2
    obtain ⟨s, hs, hsr⟩ := List.mem_filterMap.mp hr3
    by_cases ht : pyStrip s.text = ""
    · simp [spanRegion, ht] at hsr
    · have hrr : r = { bbox := [(s.bbox.x0 * (dpi / 72), s.bbox.y0 * (dpi / 72)),
                                (s.bbox.x1 * (dpi / 72), s.bbox.y0 * (dpi / 72)),
                                (s.bbox.x1 * (dpi / 72), s.bbox.y1 * (dpi / 72)),
                                (s.bbox.x0 * (dpi / 72), s.bbox.y1 * (dpi / 72))],
                       text := pyStrip s.text, confidence := 1 } := by
        simpa [spanRegion, ht] using hsr.symm
      subst hrr
      exact ⟨ht, p, hp, b, hb, l, hl, s, hs, rfl⟩
  · intro z s h
    simp [spanRegion, h]

/-- Witness for C4: the "Hello World" page's single region has the trimmed,
nonempty text; and a whitespace-only span is dropped. -/
theorem region_text_trimmed_and_nonempty_witness :
    (pageRegions (150 / 72) helloPage ∈ extract_text_regions [helloPage] 150) ∧
    (∀ r ∈ pageRegions (150 / 72) helloPage,
      r.text ≠ "" ∧
      ∃ p ∈ [helloPage], ∃ b ∈ p.blocks, ∃ l ∈ b.lines, ∃ s ∈ l.spans,
        r.text = pyStrip s.text) ∧
    pyStrip "  " = "" ∧
    spanRegion 1 { text := "  ", bbox := { x0 := 0, y0 := 0, x1 := 0, y1 := 0 } } = none := by
  have h := region_text_trimmed_and_nonempty [helloPage] 150
  refine ⟨by simp [extract_text_regions], ?_, by decide, ?_⟩
  · intro r hr
    exact h.1 (pageRegions (150 / 72) helloPage) (by simp [extract_text_regions]) r hr
  · exact h.2 1 { text := "  ", bbox := { x0 := 0, y0 := 0, x1 := 0, y1 := 0 } } (by decide)

/-! ### Store lemmas -/

theorem lookupKey_setKey_self {α : Type} (l : List ((String × Nat) × α))
    (k : String × Nat) (v : α) : lookupKey (setKey l k v) k = some v := by
  simp [setKey, lookupKey]

theorem lookupKey_filter_ne {α : Type} (l : List ((String × Nat) × α))
    (k k' : String × Nat) (h : k' ≠ k) :
    lookupKey (l.filter (fun e => decide (e.1 ≠ k))) k' = lookupKey l k' := by
  induction l with
  | nil => rfl
  | cons e rest ih =>
    by_cases he : e.1 = k
    · rw [List.filter_cons_of_neg (by simp [he])]
      rw [ih]
      have hne : ¬ (k' = e.1) := fun hc => h (hc.trans he)
      simp [lookupKey, hne]
    · rw [List.filter_cons_of_pos (by simp [he])]
      by_cases hk : k' = e.1
      · simp [lookupKey, hk]
      · simp only [lookupKey, if_neg hk]
        simpa using ih

theorem lookupKey_setKey_ne {α : Type} (l : List ((String × Nat) × α))
    (k k' : String × Nat) (v : α) (h : k' ≠ k) :
    lookupKey (setKey l k v) k' = lookupKey l k' := by
  have hu : lookupKey (setKey l k v) k' =
      if k' = k then some v else lookupKey (l.filter (fun e => decide (e.1 ≠ k))) k' := rfl
  rw [hu, if_neg h]
  exact lookupKey_filter_ne l k k' h

theorem lookupKey_eq_none {α : Type} (l : List ((String × Nat) × α))
    (k : String × Nat) : lookupKey l k = none ↔ ∀ e ∈ l, e.1 ≠ k := by
  induction l with
  | nil => simp [lookupKey]
  | cons e rest ih =>
    by_cases hk : k = e.1
    · simp [lookupKey, hk]
    · simp only [lookupKey, if_neg hk, ih, List.mem_cons]
      constructor
      · intro h f hf
        rcases hf with rfl | hf
        · exact fun hc => hk hc.symm
        · exact h f hf
      · intro h f hf
        exact h f (Or.inr hf)

/-- Claim C5: for every document id, page number n, and valid region
sequence R (including the empty sequence), a successful
`save_page_ocr(doc, n, R)` followed by `get_page_ocr(doc, n)` returns
exactly R. -/
theorem save_then_get_page_ocr_roundtrip (st : Store) (d : String) (n : Nat)
    (R : List Region) (st' : Store) (h : save_page_ocr st d n R = some st') :
    get_page_ocr st' d n = some R := by
  by_cases ha : d ∈ st.allocated
  · have hst : st' = { st with ocrData := setKey st.ocrData (d, n) R } := by
      simpa [save_page_ocr, ha] using h.symm
    subst hst
    simpa [get_page_ocr] using lookupKey_setKey_self st.ocrData (d, n) R
  · simp [save_page_ocr, ha] at h

/-- The store after `create_document_storage("doc")` on a fresh tree. -/
def docStore : Store := create_document_storage emptyStore "doc"

/-- Witness for C5: saving the empty region sequence for page 1 of "doc" and
reading it back. -/
theorem save_then_get_page_ocr_roundtrip_witness :
    save_page_ocr docStore "doc" 1 [] =
      some { docStore with ocrData := setKey docStore.ocrData ("doc", 1) [] } ∧
    get_page_ocr { docStore with ocrData := setKey docStore.ocrData ("doc", 1) [] }
      "doc" 1 = some [] :=
  ⟨by decide,
   save_then_get_page_ocr_roundtrip docStore "doc" 1 []
     { docStore with ocrData := setKey docStore.ocrData ("doc", 1) [] } (by decide)⟩

/-- Claim C6: `get_page_count` returns 0 for a never-allocated document
identifier (not an error), and otherwise returns exactly the number of pages
for which an image was saved — not the number of pages with regions saved:
a region save never changes the count, while an image save for a page with
no prior image increments it by one. -/
theorem page_count_counts_saved_images (st : Store) (d : String) :
    (d ∉ st.allocated → get_page_count st d = 0) ∧
    (∀ (n : Nat) (R : List Region) (st' : Store),
      save_page_ocr st d n R = some st' →
      get_page_count st' d = get_page_count st d) ∧
    (∀ (n : Nat) (img : PageImage) (st' : Store),
      save_page_image st d n img = some st' → lookupKey st.images (d, n) = none →
      get_page_count st' d = get_page_count st d + 1) := by
  refine ⟨fun h => by simp [get_page_count, h], ?_, ?_⟩
  · intro n R st' h
    by_cases ha : d ∈ st.allocated
    · have hst : st' = { st with ocrData := setKey st.ocrData (d, n) R } := by
        simpa [save_page_ocr, ha] using h.symm
      subst hst
      simp [get_page_count]
    · simp [save_page_ocr, ha] at h
  · intro n img st' h hnone
    by_cases ha : d ∈ st.allocated
    · have hst : st' = { st with images := setKey st.images (d, n) img } := by
        simpa [save_page_image, ha] using h.symm
      subst hst
      have hfilter : st.images.filter (fun e => decide (e.1 ≠ (d, n))) = st.images :=
        List.filter_eq_self.mpr (fun e he => by
          simpa using (lookupKey_eq_none st.images (d, n)).mp hnone e he)
      have himages : setKey st.images (d, n) img = ((d, n), img) :: st.images := by
        rw [setKey, hfilter]
      simp only [get_page_count, himages]
      rw [if_pos ha, if_pos ha, List.filter_cons_of_pos (by simp)]
      simp
    · simp [save_page_image, ha] at h

/-- A concrete page image for witnesses: the empty page rendered at zoom 1. -/
def blankImage : PageImage := { page := { blocks := [] }, zoom := 1 }

/-- Witness for C6: an unknown id has count 0; on "doc", a region save for
page 1 leaves the count at 0, and a first image save for page 1 raises it
from 0 to 1. -/
theorem page_count_counts_saved_images_witness :
    ("unknown-doc" ∉ emptyStore.allocated ∧ get_page_count emptyStore "unknown-doc" = 0) ∧
    (save_page_ocr docStore "doc" 1 [] =
        some { docStore with ocrData := setKey docStore.ocrData ("doc", 1) [] } ∧
      get_page_count { docStore with ocrData := setKey docStore.ocrData ("doc", 1) [] }
        "doc" = get_page_count docStore "doc") ∧
    (save_page_image docStore "doc" 1 blankImage =
        some { docStore with images := setKey docStore.images ("doc", 1) blankImage } ∧
      lookupKey docStore.images ("doc", 1) = none ∧
      get_page_count { docStore with images := setKey docStore.images ("doc", 1) blankImage }
        "doc" = get_page_count docStore "doc" + 1) :=
  ⟨⟨by decide, (page_count_counts_saved_images emptyStore "unknown-doc").1 (by decide)⟩,
   ⟨by decide, (page_count_counts_saved_images docStore "doc").2.1 1 []
      { docStore with ocrData := setKey docStore.ocrData ("doc", 1) [] } (by decide)⟩,
   ⟨by decide, by decide, (page_count_counts_saved_images docStore "doc").2.2 1 blankImage
      { docStore with images := setKey docStore.images ("doc", 1) blankImage }
      (by decide) (by decide)⟩⟩

/-- Claim C7: for every (document_id, page_number) key with no stored
artifact, `get_page_image_path` and `get_page_ocr` return an absent result
(`None`) rather than raising — both are total and answer `none` on a missing
key. -/
theorem missing_key_yields_none_not_error (st : Store) (d : String) (n : Nat)
    (h1 : ∀ e ∈ st.images, e.1 ≠ (d, n)) (h2 : ∀ e ∈ st.ocrData, e.1 ≠ (d, n)) :
    get_page_image_path st d n = none ∧ get_page_ocr st d n = none := by
  constructor
  · simp [get_page_image_path, (lookupKey_eq_none st.images (d, n)).mpr h1]
  · simp [get_page_ocr, (lookupKey_eq_none st.ocrData (d, n)).mpr h2]

/-- Witness for C7: the spec's concrete scenario — requesting page 1 of
"unknown-doc" on a fresh store returns `none` for both artifact kinds. -/
theorem missing_key_yields_none_not_error_witness :
    (∀ e ∈ emptyStore.images, e.1 ≠ ("unknown-doc", 1)) ∧
    (∀ e ∈ emptyStore.ocrData, e.1 ≠ ("unknown-doc", 1)) ∧
    (get_page_image_path emptyStore "unknown-doc" 1 = none ∧
     get_page_ocr emptyStore "unknown-doc" 1 = none) :=
  ⟨by decide, by decide,
   missing_key_yields_none_not_error emptyStore "unknown-doc" 1 (by decide) (by decide)⟩

/-- Claim C8: if any part of the extraction subsystem (rasterization,
text-region extraction, or a page save) raises while processing an uploaded
PDF, the upload handler still returns the markdown conversion result, with
doc_id null and has_ocr false; the error is caught (logged), not surfaced —
the response body carries no error field at all. -/
theorem extraction_failure_nonfatal_to_upload (markdown docId : String)
    (st : Store) (pr : Except Unit (List PageImage × List (List Region)))
    (fail : Option SaveFail) (stp : Store)
    (h : ocrTryBlock st docId pr fail = .error stp) :
    (convert_document markdown ".pdf" docId st pr fail).1 =
      { markdown := markdown, doc_id := none, has_ocr := false } := by
  unfold convert_document
  rw [if_pos (by decide), h]

/-- Witness for C8: rasterization/extraction raising (`process_pdf` fails to
open the file) on a fresh store — the response still carries the markdown,
with doc_id null and has_ocr false. -/
theorem extraction_failure_nonfatal_to_upload_witness :
    ocrTryBlock emptyStore "doc" (.error ()) none = .error docStore ∧
    (convert_document "# converted" ".pdf" "doc" emptyStore (.error ()) none).1 =
      { markdown := "# converted", doc_id := none, has_ocr := false } :=
  ⟨rfl,
   extraction_failure_nonfatal_to_upload "# converted" "doc" emptyStore (.error ())
     none docStore rfl⟩

/-- Claim C9 (refuted — the code contradicts §5 of the spec): on the error
exit path both `pdf_to_page_images` and `extract_text_regions` return
without releasing the document handle.  On a 1-page document whose page-0
PyMuPDF call raises, each function's event trace opens the document and
propagates the exception (second component `false`) without ever emitting
`closeDoc` — `doc.close()` sits after the loop, outside any
`finally`/`with`, so it is skipped. -/
theorem handle_not_closed_on_error_path :
    (FitzEv.openDoc ∈ (pdf_to_page_images_events [{ blocks := [] }] (some 0)).1 ∧
     FitzEv.closeDoc ∉ (pdf_to_page_images_events [{ blocks := [] }] (some 0)).1 ∧
     (pdf_to_page_images_events [{ blocks := [] }] (some 0)).2 = false) ∧
    (FitzEv.openDoc ∈ (extract_text_regions_events [{ blocks := [] }] (some 0)).1 ∧
     FitzEv.closeDoc ∉ (extract_text_regions_events [{ blocks := [] }] (some 0)).1 ∧
     (extract_text_regions_events [{ blocks := [] }] (some 0)).2 = false) ∧
    (FitzEv.closeDoc ∈ (pdf_to_page_images_events [{ blocks := [] }] none).1 ∧
     FitzEv.closeDoc ∈ (extract_text_regions_events [{ blocks := [] }] none).1) := by
  decide

theorem mem_create_allocated (st : Store) (d : String) :
    d ∈ (create_document_storage st d).allocated := by
  unfold create_document_storage
  by_cases h : d ∈ st.allocated
  · rw [if_pos h]
    exact h
  · simp [h]

/-- Running the save loop from index `i` with an injected image-write failure
at index `k ≥ i` (and enough pairs to reach it) raises with a store that
keeps its directories, keeps every entry outside the loop's own writes, and
holds both artifacts of every page the loop completed before the raise. -/
theorem savePagesFrom_img_fail (d : String) (k : Nat) :
    ∀ (pairs : List (PageImage × List Region)) (i : Nat) (st : Store),
      d ∈ st.allocated → i ≤ k → k - i < pairs.length →
      ∃ st', savePagesFrom d (some (.img k)) i st pairs = .error st' ∧
        st'.allocated = st.allocated ∧
        (∀ (d' : String) (m : Nat), d' ≠ d ∨ m ≤ i →
          lookupKey st'.images (d', m) = lookupKey st.images (d', m) ∧
          lookupKey st'.ocrData (d', m) = lookupKey st.ocrData (d', m)) ∧
        (∀ j, i < j → j ≤ k →
          (∃ img, lookupKey st'.images (d, j) = some img) ∧
          (∃ R, lookupKey st'.ocrData (d, j) = some R)) := by
  intro pairs
  induction pairs with
  | nil =>
    intro i st _ _ hlen
    exact absurd hlen (by simp)
  | cons pr rest ih =>
    intro i st ha hik hlen
    obtain ⟨img, R⟩ := pr
    by_cases hie : i = k
    · subst hie
      refine ⟨st, by simp [savePagesFrom], rfl, fun d' m _ => ⟨rfl, rfl⟩,
        fun j h1 h2 => absurd h2 (by omega)⟩
    · have hik' : i < k := lt_of_le_of_ne hik hie
      have hcond : ¬ (some (SaveFail.img k) = some (SaveFail.img i)) := by
        simp
        omega
      have hsave1 : save_page_image st d (i + 1) img =
          some { st with images := setKey st.images (d, i + 1) img } := by
        simp [save_page_image, ha]
      have hcond2 : ¬ (some (SaveFail.img k) = some (SaveFail.ocr i)) := by simp
      have hsave2 : save_page_ocr { st with images := setKey st.images (d, i + 1) img }
          d (i + 1) R =
          some { st with images := setKey st.images (d, i + 1) img,
                         ocrData := setKey st.ocrData (d, i + 1) R } := by
        simp [save_page_ocr, ha]
      have hstep : savePagesFrom d (some (.img k)) i st ((img, R) :: rest) =
          savePagesFrom d (some (.img k)) (i + 1)
            { st with images := setKey st.images (d, i + 1) img,
                      ocrData := setKey st.ocrData (d, i + 1) R } rest := by
        simp only [savePagesFrom, if_neg hcond, hsave1, if_neg hcond2, hsave2]
      obtain ⟨st', heq, halloc, hpres, hsaved⟩ :=
        ih (i + 1)
          { st with images := setKey st.images (d, i + 1) img,
                    ocrData := setKey st.ocrData (d, i + 1) R }
          ha (by omega) (by simp at hlen ⊢; omega)
      refine ⟨st', hstep.trans heq, halloc, ?_, ?_⟩
      · intro d' m hcase
        have hne : (d', m) ≠ (d, i + 1) := by
          rcases hcase with hd | hm
          · exact fun hc => hd (congrArg Prod.fst hc)
          · exact fun hc => by
              have : m = i + 1 := congrArg Prod.snd hc
              omega
        have hcase2 : d' ≠ d ∨ m ≤ i + 1 := by
          rcases hcase with hd | hm
          · exact Or.inl hd
          · exact Or.inr (by omega)
        have h2 := hpres d' m hcase2
        refine ⟨h2.1.trans ?_, h2.2.trans ?_⟩
        · exact lookupKey_setKey_ne st.images (d, i + 1) (d', m) img hne
        · exact lookupKey_setKey_ne st.ocrData (d, i + 1) (d', m) R hne
      · intro j h1 h2
        by_cases hj : j = i + 1
        · subst hj
          have h3 := hpres d (i + 1) (Or.inr (le_refl (i + 1)))
          constructor
          · exact ⟨img, h3.1.trans (lookupKey_setKey_self st.images (d, i + 1) img)⟩
          · exact ⟨R, h3.2.trans (lookupKey_setKey_self st.ocrData (d, i + 1) R)⟩
        · exact hsaved j (by omega) h2

theorem ocrTryBlock_ok_eq (st : Store) (docId : String) (images : List PageImage)
    (ocrs : List (List Region)) (fail : Option SaveFail) :
    ocrTryBlock st docId (.ok (images, ocrs)) fail =
      match savePagesFrom docId fail 0 (create_document_storage st docId)
          (images.zip ocrs) with
      | .error stp => .error stp
      | .ok st2 => .ok (docId, st2) := rfl

/-- Claim C10: if extraction fails after some pages have already been saved,
the partially saved page artifacts and the allocated storage directory for
the minted document id persist in the store the handler leaves behind: the
handler resets doc_id to null on failure but never invokes
`cleanup_document`, so a failed run leaves orphaned per-page data under an
identifier no client will ever learn. -/
theorem failed_extraction_leaves_orphaned_data (markdown docId : String)
    (st : Store) (images : List PageImage) (ocrs : List (List Region)) (k : Nat)
    (hk : k < (images.zip ocrs).length) :
    ∃ st' : Store,
      convert_document markdown ".pdf" docId st (.ok (images, ocrs)) (some (.img k)) =
        ({ markdown := markdown, doc_id := none, has_ocr := false }, st') ∧
      docId ∈ st'.allocated ∧
      ∀ j, 0 < j → j ≤ k →
        (∃ s, get_page_image_path st' docId j = some s) ∧
        (∃ R, get_page_ocr st' docId j = some R) := by
  have ha : docId ∈ (create_document_storage st docId).allocated :=
    mem_create_allocated st docId
  obtain ⟨st', heq, halloc, _, hsaved⟩ :=
    savePagesFrom_img_fail docId k (images.zip ocrs) 0
      (create_document_storage st docId) ha (Nat.zero_le k) (by omega)
  have hblock : ocrTryBlock st docId (.ok (images, ocrs)) (some (.img k)) =
      .error st' := by
    rw [ocrTryBlock_ok_eq, heq]
  refine ⟨st', ?_, ?_, ?_⟩
  · unfold convert_document
    rw [if_pos (by decide), hblock]
  · rw [halloc]; exact ha
  · intro j h1 h2
    obtain ⟨⟨img, himg⟩, ⟨R, hocr⟩⟩ := hsaved j h1 h2
    exact ⟨⟨page_image_path docId j, by simp [get_page_image_path, himg]⟩,
           ⟨R, by simpa [get_page_ocr] using hocr⟩⟩

/-- Two blank page images and two empty region lists — enough pages for the
save loop to complete page 1 and then fail on page 2. -/
def twoImages : List PageImage := [blankImage, blankImage]

/-- The matching two-page region data. -/
def twoOcrs : List (List Region) := [[], []]

/-- Witness for C10: a 2-page document whose second image save raises — the
response resets doc_id, yet the store keeps the directory and page 1's
image and regions. -/
theorem failed_extraction_leaves_orphaned_data_witness :
    1 < (twoImages.zip twoOcrs).length ∧
    ∃ st' : Store,
      convert_document "# converted" ".pdf" "doc" emptyStore
          (.ok (twoImages, twoOcrs)) (some (.img 1)) =
        ({ markdown := "# converted", doc_id := none, has_ocr := false }, st') ∧
      "doc" ∈ st'.allocated ∧
      ∀ j, 0 < j → j ≤ 1 →
        (∃ s, get_page_image_path st' "doc" j = some s) ∧
        (∃ R, get_page_ocr st' "doc" j = some R) :=
  ⟨by decide,
   failed_extraction_leaves_orphaned_data "# converted" "doc" emptyStore
     twoImages twoOcrs 1 (by decide)⟩

end TabularReview
